import Mathlib

/-!
Verification of the zensolve recruiting / employee-operations application.

The server actions of src/src/app/actions.ts and the client pages they serve
(src/unnamed/part_000 .. part_004, src/src/app/employee/dashboard/page.tsx)
are embedded shallowly: each zod schema becomes a function from a raw input
record to a pair of (field errors, parsed data) - mirroring safeParse, whose
result is a success exactly when the error list is empty - and each server
action becomes a function from input and store state to a result and the new
state.  Document collections are lists; JS numbers are rationals (every
numeric value the app handles is exactly representable), with `none` for NaN
where a computation can produce it.
-/

/-- JS values in the shapes this app passes to its zod schemas: strings,
finite numbers, booleans, and undefined. -/
inductive JsValue where
  | str (s : String)
  | num (q : Rat)
  | boolean (b : Bool)
  | undef
  deriving DecidableEq

/-- Whitespace trim on both ends, as JS String.prototype.trim does inside
Number(string). -/
def trimChars (l : List Char) : List Char :=
  ((l.dropWhile Char.isWhitespace).reverse.dropWhile Char.isWhitespace).reverse

/-- Split a character list at every occurrence of the separator. -/
def splitOnChar (sep : Char) : List Char → List (List Char)
  | [] => [[]]
  | c :: cs =>
    let r := splitOnChar sep cs
    if c = sep then [] :: r
    else
      match r with
      | [] => [[c]]
      | h :: t => (c :: h) :: t

/-- Base-10 value of a digit list. -/
def decDigitsVal (l : List Char) : Nat :=
  l.foldl (fun n c => 10 * n + (c.toNat - 48)) 0

/-- Unsigned decimal literal (digits with an optional fractional part), the
fragment of the ECMAScript StringNumericLiteral grammar this app's inputs
use; `none` is NaN.  Hex/exponent forms are outside the fragment. -/
def parseUnsignedDec (l : List Char) : Option Rat :=
  let intPart := l.takeWhile (fun c => c ≠ '.')
  let rest := l.dropWhile (fun c => c ≠ '.')
  match rest with
  | [] =>
    if intPart ≠ [] ∧ intPart.all Char.isDigit then some (decDigitsVal intPart : Nat)
    else none
  | _ :: fracPart =>
    if fracPart.any (fun c => c = '.') then none
    else if intPart = [] ∧ fracPart = [] then none
    else if intPart.all Char.isDigit ∧ fracPart.all Char.isDigit then
      some ((decDigitsVal intPart : Rat) +
        (decDigitsVal fracPart : Rat) / ((10 : Rat) ^ fracPart.length))
    else none

/-- JS Number(string): trims whitespace, the empty (or all-whitespace) string
is 0, an optionally signed decimal literal is its base-10 value, anything
else is NaN (`none`). -/
def jsStringToNumber (s : String) : Option Rat :=
  match trimChars s.data with
  | [] => some 0
  | c :: rest =>
    if c = '-' then (parseUnsignedDec rest).map (fun q => -q)
    else if c = '+' then parseUnsignedDec rest
    else parseUnsignedDec (c :: rest)

/-- ECMAScript ToNumber as invoked by z.coerce.number(), i.e. Number(value),
on the value shapes this app passes: numbers pass through, strings parse as
above, booleans map to 1/0, undefined is NaN (`none`). -/
def coerceNumber : JsValue → Option Rat
  | .num q => some q
  | .str s => jsStringToNumber s
  | .boolean b => some (if b then 1 else 0)
  | .undef => none

/-- s.endsWith(suffix). -/
def strEndsWith (s suffix : String) : Bool :=
  s.data.reverse.take suffix.data.length == suffix.data.reverse

/-- s.startsWith(p). -/
def strStartsWith (s p : String) : Bool :=
  s.data.take p.data.length == p.data

/-- Modelled zod z.string().email() format check, restricted to the shape
exercised here: exactly one at-sign, a nonempty local part, a domain that
contains a dot and neither starts nor ends with one, and no whitespace. -/
def emailValid (s : String) : Bool :=
  match splitOnChar '@' s.data with
  | [lp, dom] =>
    !lp.isEmpty && dom.any (fun c => c = '.') && (dom.head? != some '.') &&
      (dom.getLast? != some '.') && s.data.all (fun c => !c.isWhitespace)
  | _ => false

/-- Modelled zod z.string().url() check (new URL(s) succeeding), restricted
to the absolute http(s) URLs this app stores. -/
def urlValid (s : String) : Bool :=
  (strStartsWith s "http://" || strStartsWith s "https://") &&
    s.data.all (fun c => !c.isWhitespace)

/-- zod field issues: (path, message) pairs, flattened as
error.flatten().fieldErrors does. -/
abbrev FieldErrors := List (String × String)

/-- The uniform result every server action returns:
{success, message, errors?} with errors empty when absent. -/
structure ActionResult where
  success : Bool
  message : String
  errors : FieldErrors
  deriving DecidableEq

/-- z.string().min(n, msg): issues contributed at the given path. -/
def zMinString (field msg : String) (n : Nat) (s : String) : FieldErrors :=
  if n ≤ s.length then [] else [(field, msg)]

/-- z.string().max(n, msg). -/
def zMaxString (field msg : String) (n : Nat) (s : String) : FieldErrors :=
  if s.length ≤ n then [] else [(field, msg)]

/-- z.string().length(n, msg). -/
def zLenString (field msg : String) (n : Nat) (s : String) : FieldErrors :=
  if s.length = n then [] else [(field, msg)]

/-- z.string().email(msg). -/
def zEmail (field msg : String) (s : String) : FieldErrors :=
  if emailValid s then [] else [(field, msg)]

/-- zod's invalid-type message when coercion yields NaN. -/
def nanMessage : String := "Expected number, received nan"

/-- z.coerce.number().optional(): undefined passes through, any other value
is coerced and NaN is an issue. -/
def zOptCoerceNum (field : String) (v : JsValue) : FieldErrors × Option Rat :=
  match v with
  | .undef => ([], none)
  | v =>
    match coerceNumber v with
    | some q => ([], some q)
    | none => ([(field, nanMessage)], none)

/-- z.coerce.number().min(n, msg): NaN is an invalid-type issue, a coerced
value below the bound is a too-small issue. -/
def zCoerceNumMin (field msg : String) (n : Rat) (v : JsValue) : FieldErrors × Rat :=
  match coerceNumber v with
  | some q => (if n ≤ q then [] else [(field, msg)], q)
  | none => ([(field, nanMessage)], 0)

/-! ## DSR (daily status report) -/

/-- Raw input of submitDsr (actions.ts lines 252-266). -/
structure DsrInput where
  description : String
  hasTravelled : Option Bool
  openingKm : JsValue
  closingKm : JsValue
  employeeId : String
  employeeName : String

/-- A document of the dsr collection (also the parse result of the server
dsrSchema). -/
structure DsrDoc where
  description : String
  hasTravelled : Bool
  openingKm : Option Rat
  closingKm : Option Rat
  employeeId : String
  employeeName : String
  deriving DecidableEq

/-- dsrSchema of src/src/app/actions.ts (lines 243-250).  Note: it has no
cross-field refinement relating openingKm and closingKm. -/
def dsrSchema (i : DsrInput) : FieldErrors × DsrDoc :=
  let e1 := zMinString "description" "Description is required." 10 i.description
  let p2 := zOptCoerceNum "openingKm" i.openingKm
  let p3 := zOptCoerceNum "closingKm" i.closingKm
  (e1 ++ p2.1 ++ p3.1,
   ⟨i.description, i.hasTravelled.getD false, p2.2, p3.2, i.employeeId, i.employeeName⟩)

/-- submitDsr (actions.ts lines 252-266): validate, then append one dsr
document. -/
def submitDsr (i : DsrInput) (st : List DsrDoc) : ActionResult × List DsrDoc :=
  let p := dsrSchema i
  if p.1 = [] then (⟨true, "DSR submitted successfully.", []⟩, st ++ [p.2])
  else (⟨false, "Invalid data.", p.1⟩, st)

/-- Raw input of the DSR page form (src/unnamed/part_003). -/
structure DsrFormInput where
  description : String
  hasTravelled : Option Bool
  openingKm : JsValue
  closingKm : JsValue

/-- Parse result of the client-side dsrSchema. -/
structure DsrFormData where
  description : String
  hasTravelled : Bool
  openingKm : Option Rat
  closingKm : Option Rat

/-- The refine callback of the client dsrSchema (part_003 lines 29-33):
when hasTravelled, openingKm and closingKm must both be defined and
closingKm > openingKm. -/
def dsrRefineOk (ht : Bool) (okm ckm : Option Rat) : Bool :=
  if ht then
    match okm, ckm with
    | some o, some c => decide (o < c)
    | _, _ => false
  else true

/-- dsrSchema of the DSR page (src/unnamed/part_003 lines 24-37): the base
object schema plus the refine.  As in zod, the refinement only runs when the
base object parse has no issues. -/
def dsrSchemaClient (i : DsrFormInput) : FieldErrors × DsrFormData :=
  let e1 := zMinString "description"
    "Please provide a detailed description of your work." 10 i.description
  let p2 := zOptCoerceNum "openingKm" i.openingKm
  let p3 := zOptCoerceNum "closingKm" i.closingKm
  let ht := i.hasTravelled.getD false
  let base := e1 ++ p2.1 ++ p3.1
  let refineErrs : FieldErrors :=
    if base = [] ∧ dsrRefineOk ht p2.2 p3.2 = false then
      [("closingKm", "Closing KM must be greater than Opening KM.")]
    else []
  (base ++ refineErrs, ⟨i.description, ht, p2.2, p3.2⟩)

/-- A fetched DSR log row as the DSR page renders it. -/
structure DsrLog where
  description : String
  hasTravelled : Bool
  openingKm : Option Rat
  closingKm : Option Rat

/-- The Travel (KM) cell of the DSR log table (part_003 lines 224-229):
hasTravelled && closingKm && openingKm ? closingKm - openingKm : N/A.
`none` models the rendered N/A; JS truthiness makes an absent field and a
present-but-zero reading both falsy. -/
def travelCell (log : DsrLog) : Option Rat :=
  match log.hasTravelled, log.closingKm, log.openingKm with
  | true, some c, some o => if c ≠ 0 ∧ o ≠ 0 then some (c - o) else none
  | _, _, _ => none

/-! ## Call logs -/

/-- Raw input of logCall (actions.ts lines 278-292). -/
structure CallLogInput where
  clientName : String
  clientMobile : String
  topic : String
  duration : JsValue
  employeeId : String
  employeeName : String

/-- A document of the callLogs collection. -/
structure CallLogDoc where
  clientName : String
  clientMobile : String
  topic : String
  duration : Rat
  employeeId : String
  employeeName : String

/-- callLogSchema of actions.ts (lines 268-275). -/
def callLogSchema (i : CallLogInput) : FieldErrors × CallLogDoc :=
  let e1 := zMinString "clientName" "Client name is required." 2 i.clientName
  let e2 := zMinString "clientMobile" "A valid mobile number is required." 10 i.clientMobile
  let e3 := zMinString "topic" "Topic is required." 5 i.topic
  let p4 := zCoerceNumMin "duration" "Duration must be at least 1 minute." 1 i.duration
  (e1 ++ e2 ++ e3 ++ p4.1,
   ⟨i.clientName, i.clientMobile, i.topic, p4.2, i.employeeId, i.employeeName⟩)

/-- logCall (actions.ts lines 278-292). -/
def logCall (i : CallLogInput) (st : List CallLogDoc) : ActionResult × List CallLogDoc :=
  let p := callLogSchema i
  if p.1 = [] then (⟨true, "Call logged successfully.", []⟩, st ++ [p.2])
  else (⟨false, "Invalid data.", p.1⟩, st)

/-! ## Earnings -/

/-- One raw earnings line item. -/
structure EarningItemInput where
  description : String
  amount : JsValue

/-- One validated earnings line item. -/
structure EarningItem where
  description : String
  amount : Rat

/-- Raw input of submitEarnings (actions.ts lines 303-325). -/
structure EarningsInput where
  earnings : List EarningItemInput
  employeeId : String
  employeeName : String

/-- Validated earnings submission. -/
structure EarningsData where
  earnings : List EarningItem
  employeeId : String
  employeeName : String

/-- A document of the earnings collection. -/
structure EarningDoc where
  description : String
  amount : Rat
  employeeId : String
  employeeName : String
  deriving DecidableEq

/-- The per-line-item object schema inside earningsSchema (actions.ts lines
295-298): description min 3, amount coerced with min 1.  Array indices are
omitted from issue paths. -/
def earningItemParse (it : EarningItemInput) : FieldErrors × EarningItem :=
  let e1 := zMinString "description" "Description is required." 3 it.description
  let p2 := zCoerceNumMin "amount" "Amount must be greater than 0." 1 it.amount
  (e1 ++ p2.1, ⟨it.description, p2.2⟩)

/-- earningsSchema of actions.ts (lines 294-301): array of line items with
min 1, plus employee identity. -/
def earningsSchema (i : EarningsInput) : FieldErrors × EarningsData :=
  let minErr : FieldErrors :=
    if i.earnings.length < 1 then [("earnings", "Please add at least one earning.")] else []
  let parsed := i.earnings.map earningItemParse
  (minErr ++ (parsed.map Prod.fst).flatten,
   ⟨parsed.map Prod.snd, i.employeeId, i.employeeName⟩)

/-- submitEarnings (actions.ts lines 303-325): validate, then write one
earnings document per line item, each carrying the submission's employeeId
and employeeName. -/
def submitEarnings (i : EarningsInput) (st : List EarningDoc) :
    ActionResult × List EarningDoc :=
  let p := earningsSchema i
  if p.1 = [] then
    (⟨true, "Earnings submitted successfully.", []⟩,
     st ++ p.2.earnings.map (fun e => ⟨e.description, e.amount, p.2.employeeId, p.2.employeeName⟩))
  else (⟨false, "Invalid data.", p.1⟩, st)


/-! ## Employee registration -/

/-- Raw input of registerEmployee (actions.ts lines 339-396); all fields
arrive as strings. -/
structure RegistrationInput where
  fullName : String
  mobile : String
  personalEmail : String
  userId : String
  password : String
  district : String
  state : String
  pincode : String

/-- registrationSchema of actions.ts (lines 327-336).  As in zod, the
endsWith refinement on userId only runs when the base string checks pass. -/
def registrationSchema (i : RegistrationInput) : FieldErrors × RegistrationInput :=
  let e1 := zMinString "fullName" "Full name must be at least 3 characters." 3 i.fullName
  let e2 := zMinString "mobile" "A valid 10-digit mobile number is required." 10 i.mobile ++
            zMaxString "mobile" "A valid 10-digit mobile number is required." 10 i.mobile
  let e3 := zEmail "personalEmail" "Please enter a valid personal email." i.personalEmail
  let e4 :=
    if i.userId.length < 3 then [("userId", "User ID is required.")]
    else if strEndsWith i.userId "@zensolve.in" then []
    else [("userId", "User ID must end with @zensolve.in")]
  let e5 := zMinString "password" "Password must be at least 6 characters." 6 i.password
  let e6 := zMinString "district" "District is required." 2 i.district
  let e7 := zMinString "state" "State is required." 2 i.state
  let e8 := zLenString "pincode" "Pincode must be 6 digits." 6 i.pincode
  (e1 ++ e2 ++ e3 ++ e4 ++ e5 ++ e6 ++ e7 ++ e8, i)

/-- An employees-collection document (actions.ts lines 359-369). -/
structure EmployeeDoc where
  name : String
  userId : String
  mobile : String
  personalEmail : String
  district : String
  state : String
  pincode : String
  status : String
  deriving DecidableEq

/-- State touched by registerEmployee: the identity-bridge accounts and the
employees collection. -/
structure RegState where
  authAccounts : List String
  employees : List EmployeeDoc
  deriving DecidableEq

/-- registerEmployee (actions.ts lines 339-396): validate; create the
identity-bridge account, which fails with auth/email-already-in-use when the
login id exists (the bridge is modelled as deterministic: creation fails
exactly then); then write the Employee document for the new identity. -/
def registerEmployee (i : RegistrationInput) (st : RegState) : ActionResult × RegState :=
  let p := registrationSchema i
  if p.1 = [] then
    if st.authAccounts.any (fun a => a == i.userId) then
      (⟨false, "This User ID is already taken. Please try with a different User ID.", []⟩, st)
    else
      (⟨true, "Employee registered successfully!", []⟩,
       ⟨st.authAccounts ++ [i.userId],
        st.employees ++
          [⟨i.fullName, i.userId, i.mobile, i.personalEmail, i.district, i.state, i.pincode, "active"⟩]⟩)
  else (⟨false, "Invalid registration data. Please check all fields.", p.1⟩, st)

/-! ## Newsletter -/

/-- subscribeToNewsletter (actions.ts lines 402-440).  The store is the list
of subscriber emails; formData.get("email") may be absent (`none`).  The
handler queries for the email first and inserts only when it is missing. -/
def subscribeToNewsletter (email : Option String) (st : List String) :
    ActionResult × List String :=
  match email with
  | none => (⟨false, "Invalid email address.", []⟩, st)
  | some e =>
    if emailValid e then
      if st.any (fun x => x == e) then (⟨true, "You are already subscribed!", []⟩, st)
      else (⟨true, "Thank you for subscribing!", []⟩, st ++ [e])
    else (⟨false, "Invalid email address.", []⟩, st)

/-! ## Membership verification -/

/-- State touched by verifyMembership: identity-bridge accounts and the
memberships collection, the latter as (document id, status) pairs. -/
structure MemState where
  authAccounts : List String
  memberships : List (String × String)
  deriving DecidableEq

/-- Whether a memberships document with the given id exists. -/
def membershipHasId (l : List (String × String)) (id : String) : Bool :=
  l.any (fun p => p.1 == id)

/-- updateDoc(membershipRef, status): set the status of the document with the
given id. -/
def updateStatus (l : List (String × String)) (id status : String) :
    List (String × String) :=
  l.map (fun p => if p.1 == id then (p.1, status) else p)

/-- The stored status of a memberships document. -/
def statusOf (l : List (String × String)) (id : String) : Option String :=
  (l.find? (fun p => p.1 == id)).map (fun p => p.2)

/-- verifyMembership (actions.ts lines 490-524): validate; create the
identity-bridge account (modelled deterministic: fails with
auth/email-already-in-use exactly when the email exists); update the
membership status to verified.  An already-in-use failure is caught and the
status update still happens.  The result is `none` when the action's promise
rejects unhandled: updateDoc throwing in the catch branch, which happens
exactly when the membership document is missing there. -/
def verifyMembership (membershipId email password : String) (st : MemState) :
    Option (ActionResult × MemState) :=
  if emailValid email then
    if st.authAccounts.any (fun a => a == email) then
      if membershipHasId st.memberships membershipId then
        some (⟨true, "User already exists. Membership marked as verified.", []⟩,
          ⟨st.authAccounts, updateStatus st.memberships membershipId "verified"⟩)
      else none
    else
      if membershipHasId st.memberships membershipId then
        some (⟨true, "Membership verified and user created.", []⟩,
          ⟨st.authAccounts ++ [email], updateStatus st.memberships membershipId "verified"⟩)
      else
        some (⟨false, "Failed to verify membership.", []⟩,
          ⟨st.authAccounts ++ [email], st.memberships⟩)
  else some (⟨false, "Invalid data.", []⟩, st)

/-! ## Job application -/

/-- The resume file pulled from the form data. -/
structure UploadFile where
  name : String
  size : Nat

/-- Environment of one applyForJob call: Date.now() at submission and the
outcome the content store returns for the one upload the action may perform
(`none` models the upload rejecting, `some url` the URL getDownloadURL
resolves to). -/
structure UploadEnv where
  now : Nat
  uploadResult : Option String

/-- The fields of applicationSchema (actions.ts lines 127-162), generic in
the type of yearsOfExperience, which is a raw JS value before validation and
an optional number after coercion. -/
structure ApplicationFields (Y : Type) where
  jobId : String
  fullName : String
  dob : Option String
  gender : Option String
  mobile : String
  email : String
  whatsapp : Option String
  permanentAddress : Option String
  currentAddress : Option String
  city : Option String
  state : Option String
  pincode : Option String
  highestQualification : Option String
  yearOfPassing : Option String
  university : Option String
  specialization : Option String
  hasExperience : String
  previousCompany : Option String
  designation : Option String
  yearsOfExperience : Y
  linkedin : Option String
  technicalSkills : Option String
  softSkills : Option String
  certifications : Option String
  languages : List String
  preferredRole : Option String
  preferredLocation : Option String
  expectedSalary : Option String
  noticePeriod : Option String
  readyToRelocate : String
  whyShouldWeHireYou : Option String
  confirmInfo : Bool
  agreeTerms : Bool
  resumeUrl : Option String

/-- The converted form data applyForJob validates (actions.ts lines 167-176). -/
abbrev AppInput := ApplicationFields JsValue

/-- A validated application, also the persisted applications document. -/
abbrev ApplicationRecord := ApplicationFields (Option Rat)

/-- Rebuild the record with yearsOfExperience transformed. -/
def mapYears {A B : Type} (f : A → B) (i : ApplicationFields A) : ApplicationFields B :=
  { jobId := i.jobId, fullName := i.fullName, dob := i.dob, gender := i.gender,
    mobile := i.mobile, email := i.email, whatsapp := i.whatsapp,
    permanentAddress := i.permanentAddress, currentAddress := i.currentAddress,
    city := i.city, state := i.state, pincode := i.pincode,
    highestQualification := i.highestQualification, yearOfPassing := i.yearOfPassing,
    university := i.university, specialization := i.specialization,
    hasExperience := i.hasExperience, previousCompany := i.previousCompany,
    designation := i.designation, yearsOfExperience := f i.yearsOfExperience,
    linkedin := i.linkedin, technicalSkills := i.technicalSkills,
    softSkills := i.softSkills, certifications := i.certifications,
    languages := i.languages, preferredRole := i.preferredRole,
    preferredLocation := i.preferredLocation, expectedSalary := i.expectedSalary,
    noticePeriod := i.noticePeriod, readyToRelocate := i.readyToRelocate,
    whyShouldWeHireYou := i.whyShouldWeHireYou, confirmInfo := i.confirmInfo,
    agreeTerms := i.agreeTerms, resumeUrl := i.resumeUrl }

/-- z.enum(["yes", "no"]). -/
def zEnumYesNo (field : String) (s : String) : FieldErrors :=
  if s == "yes" ∨ s == "no" then [] else [(field, "Invalid enum value.")]

/-- applicationSchema of actions.ts (lines 127-162): only the constrained
fields contribute issues; plain optional strings pass through. -/
def applicationSchema (i : AppInput) : FieldErrors × ApplicationRecord :=
  let e1 := zMinString "fullName" "Full name is required." 2 i.fullName
  let e2 := zMinString "mobile" "A valid mobile number is required." 10 i.mobile
  let e3 := zEmail "email" "A valid email address is required." i.email
  let e4 := zEnumYesNo "hasExperience" i.hasExperience
  let p5 := zOptCoerceNum "yearsOfExperience" i.yearsOfExperience
  let e6 := zEnumYesNo "readyToRelocate" i.readyToRelocate
  let e7 :=
    if i.confirmInfo then [] else [("confirmInfo", "You must confirm the information is true.")]
  let e8 := if i.agreeTerms then [] else [("agreeTerms", "You must agree to the terms.")]
  let e9 :=
    match i.resumeUrl with
    | none => []
    | some u => if urlValid u then [] else [("resumeUrl", "Failed to upload resume.")]
  (e1 ++ e2 ++ e3 ++ e4 ++ p5.1 ++ e6 ++ e7 ++ e8 ++ e9,
   mapYears (fun _ => p5.2) i)

/-- State touched by applyForJob: the applications collection and the paths
written to the content store. -/
structure AppState where
  applications : List ApplicationRecord
  storagePaths : List String

/-- applyForJob (actions.ts lines 165-217): validate; when a non-empty
resume file is supplied, upload it at resumes/{jobId}/{Date.now()}-{name}
and attach the download URL to the record; then write the applications
document.  A rejected upload is caught before the document write. -/
def applyForJob (i : AppInput) (resume : Option UploadFile) (env : UploadEnv)
    (st : AppState) : ActionResult × AppState :=
  let p := applicationSchema i
  if p.1 = [] then
    match resume with
    | some f =>
      if 0 < f.size then
        let path := "resumes/" ++ p.2.jobId ++ "/" ++ toString env.now ++ "-" ++ f.name
        match env.uploadResult with
        | some url =>
          (⟨true, "Application submitted successfully! We will get back to you soon.", []⟩,
           ⟨st.applications ++ [{ p.2 with resumeUrl := some url }],
            st.storagePaths ++ [path]⟩)
        | none => (⟨false, "Failed to submit application. Please try again.", []⟩, st)
      else
        (⟨true, "Application submitted successfully! We will get back to you soon.", []⟩,
         ⟨st.applications ++ [p.2], st.storagePaths⟩)
    | none =>
      (⟨true, "Application submitted successfully! We will get back to you soon.", []⟩,
       ⟨st.applications ++ [p.2], st.storagePaths⟩)
  else (⟨false, "Invalid application data. Please check all fields.", p.1⟩, st)

/-! ## Dashboard aggregation -/

/-- An earnings document as the dashboard reads it back: the store is
schemaless, so the amount field may be absent. -/
structure EarningRecordRead where
  employeeId : String
  amount : Option Rat

/-- JS (doc.data().amount || 0): an absent amount falls to 0; a present zero
is falsy too and also yields the right operand 0. -/
def amountOrZero : Option Rat → Rat
  | none => 0
  | some a => if a = 0 then 0 else a

/-- The Total Earnings aggregation of the employee dashboard
(src/src/app/employee/dashboard/page.tsx lines 48-52): query the earnings
documents with employeeId == uid and fold amount || 0 into a running sum. -/
def totalEarnings (docs : List EarningRecordRead) (uid : String) : Rat :=
  (docs.filter (fun d => d.employeeId == uid)).foldl
    (fun acc d => acc + amountOrZero d.amount) 0

/-- A concrete valid application input (passes applicationSchema), used to
exercise applyForJob on explicit data. -/
def c4input : AppInput :=
  { jobId := "job1", fullName := "Asha Verma", dob := none, gender := none,
    mobile := "9876543210", email := "asha@example.com", whatsapp := none,
    permanentAddress := none, currentAddress := none, city := none, state := none,
    pincode := none, highestQualification := none, yearOfPassing := none,
    university := none, specialization := none, hasExperience := "no",
    previousCompany := none, designation := none, yearsOfExperience := JsValue.undef,
    linkedin := none, technicalSkills := none, softSkills := none,
    certifications := none, languages := [], preferredRole := none,
    preferredLocation := none, expectedSalary := none, noticePeriod := none,
    readyToRelocate := "yes", whyShouldWeHireYou := none, confirmInfo := true,
    agreeTerms := true, resumeUrl := none }

/-! ## Helper lemmas -/

/-- A query-by-equality that finds nothing means the key is absent. -/
theorem count_eq_zero_of_any_eq_false (l : List String) (e : String)
    (h : l.any (fun x => x == e) = false) : l.count e = 0 := by
  rw [List.count_eq_zero]
  intro hm
  have ht : l.any (fun x => x == e) = true := by
    rw [List.any_eq_true]
    exact ⟨e, hm, by simp⟩
  rw [h] at ht
  exact Bool.false_ne_true ht

/-- updateStatus rewrites statuses only, so id-existence is unchanged. -/
theorem membershipHasId_updateStatus (l : List (String × String)) (id id2 s : String) :
    membershipHasId (updateStatus l id2 s) id = membershipHasId l id := by
  unfold membershipHasId updateStatus
  rw [List.any_map]
  congr 1
  funext q
  by_cases hq : q.1 = id2 <;> simp [hq]

/-- After updateStatus on an existing id, that id reads back the new status. -/
theorem statusOf_updateStatus_self (l : List (String × String)) (id s : String)
    (h : membershipHasId l id = true) :
    statusOf (updateStatus l id s) id = some s := by
  induction l with
  | nil => simp [membershipHasId] at h
  | cons p t ih =>
    have hcons : updateStatus (p :: t) id s =
        (if p.1 == id then (p.1, s) else p) :: updateStatus t id s := rfl
    by_cases hp : (p.1 == id) = true
    · rw [hcons, if_pos hp]
      unfold statusOf
      rw [List.find?_cons_of_pos _ (by simpa using hp)]
      rfl
    · have hpf : (p.1 == id) = false := Bool.eq_false_iff.mpr hp
      have ht : membershipHasId t id = true := by
        have h2 : ((p.1 == id) || membershipHasId t id) = true := h
        rw [hpf, Bool.false_or] at h2
        exact h2
      rw [hcons, if_neg hp]
      unfold statusOf
      rw [List.find?_cons_of_neg _ (by simpa using hp)]
      exact ih ht

/-- Folding additions of a mapped value from an accumulator is the
accumulator plus the mapped sum. -/
theorem foldl_add_eq_sum {α : Type} (f : α → Rat) (l : List α) (a : Rat) :
    l.foldl (fun acc d => acc + f d) a = a + (l.map f).sum := by
  induction l generalizing a with
  | nil => simp
  | cons x xs ih => simp [ih, add_assoc]

/-- amount || 0 agrees with getD 0: a present zero falls to the right
operand, which is the same value. -/
theorem amountOrZero_eq_getD (x : Option Rat) : amountOrZero x = x.getD 0 := by
  cases x with
  | none => rfl
  | some a => by_cases h : a = 0 <;> simp [amountOrZero, h]

/-- The client refine passes with hasTravelled exactly when both readings
are present and closing exceeds opening. -/
theorem dsrRefineOk_true_iff (okm ckm : Option Rat) :
    dsrRefineOk true okm ckm = true ↔
      ∃ o c, okm = some o ∧ ckm = some c ∧ o < c := by
  cases okm <;> cases ckm <;> simp [dsrRefineOk]

/-! ## C6: registration rejects a userId outside the required domain -/

/-- A userId missing the required domain suffix always contributes a userId
field issue to registrationSchema. -/
theorem registrationSchema_userId_issue (i : RegistrationInput)
    (h : strEndsWith i.userId "@zensolve.in" = false) :
    ∃ msg, ("userId", msg) ∈ (registrationSchema i).1 := by
  by_cases h3 : i.userId.length < 3
  · exact ⟨"User ID is required.", by simp [registrationSchema, h3]⟩
  · exact ⟨"User ID must end with @zensolve.in", by simp [registrationSchema, h3, h]⟩

/-- C6: for every registration input whose userId does not end with
at-zensolve.in, registerEmployee returns a field-level validation failure on
userId and performs zero side effects: the identity-bridge accounts and the
employees collection are untouched (validation runs before any bridge
call). -/
theorem registerEmployee_rejects_foreign_userId (i : RegistrationInput) (st : RegState)
    (h : strEndsWith i.userId "@zensolve.in" = false) :
    (registerEmployee i st).1.success = false ∧
    (registerEmployee i st).2 = st ∧
    ∃ msg, ("userId", msg) ∈ (registerEmployee i st).1.errors := by
  obtain ⟨msg, hm⟩ := registrationSchema_userId_issue i h
  have hne : (registrationSchema i).1 ≠ [] := List.ne_nil_of_mem hm
  simp only [registerEmployee]
  rw [if_neg hne]
  exact ⟨rfl, rfl, msg, hm⟩

/-- C6 witness: userId bob at gmail.com is rejected with no side effects. -/
theorem registerEmployee_rejects_foreign_userId_witness :
    (registerEmployee ⟨"Bob Kumar", "9876543210", "bob@mail.com", "bob@gmail.com",
       "secret123", "Patna", "Bihar", "800001"⟩ ⟨[], []⟩).1.success = false ∧
    (registerEmployee ⟨"Bob Kumar", "9876543210", "bob@mail.com", "bob@gmail.com",
       "secret123", "Patna", "Bihar", "800001"⟩ ⟨[], []⟩).2 = ⟨[], []⟩ ∧
    ∃ msg, ("userId", msg) ∈ (registerEmployee ⟨"Bob Kumar", "9876543210",
       "bob@mail.com", "bob@gmail.com", "secret123", "Patna", "Bihar", "800001"⟩
       ⟨[], []⟩).1.errors :=
  registerEmployee_rejects_foreign_userId _ _ (by decide)

/-! ## C5: newsletter subscription is idempotent -/

/-- C5: for a valid email not yet subscribed, subscribing twice succeeds
both times, the first call inserts the one subscriber document, the second
call inserts nothing, and exactly one document with that email exists. -/
theorem subscribeToNewsletter_idempotent (st : List String) (email : String)
    (h1 : emailValid email = true)
    (h2 : st.any (fun x => x == email) = false) :
    (subscribeToNewsletter (some email) st).1.success = true ∧
    (subscribeToNewsletter (some email) st).2 = st ++ [email] ∧
    (subscribeToNewsletter (some email) (st ++ [email])).1.success = true ∧
    (subscribeToNewsletter (some email) (st ++ [email])).2 = st ++ [email] ∧
    (st ++ [email]).count email = 1 := by
  have hc0 : st.count email = 0 := count_eq_zero_of_any_eq_false st email h2
  have hany : (st ++ [email]).any (fun x => x == email) = true := by simp
  refine ⟨?_, ?_, ?_, ?_, ?_⟩
  · simp [subscribeToNewsletter, h1, h2]
  · simp [subscribeToNewsletter, h1, h2]
  · simp [subscribeToNewsletter, h1, hany]
  · simp [subscribeToNewsletter, h1, hany]
  · simp [List.count_append, hc0]

/-- C5 witness: subscribing a concrete fresh email twice keeps one document. -/
theorem subscribeToNewsletter_idempotent_witness :
    (subscribeToNewsletter (some "a@b.com") []).1.success = true ∧
    (subscribeToNewsletter (some "a@b.com") []).2 = [] ++ ["a@b.com"] ∧
    (subscribeToNewsletter (some "a@b.com") ([] ++ ["a@b.com"])).1.success = true ∧
    (subscribeToNewsletter (some "a@b.com") ([] ++ ["a@b.com"])).2 = [] ++ ["a@b.com"] ∧
    (([] ++ ["a@b.com"] : List String)).count "a@b.com" = 1 :=
  subscribeToNewsletter_idempotent [] "a@b.com" (by decide) (by decide)

/-! ## C2: membership verification is idempotent -/

/-- C2: for a valid email with no identity-bridge account yet and an
existing membership, verifyMembership succeeds, and calling it again with
the same arguments succeeds through the benign already-exists path: the
status reads verified after each call, the second call adds no account, and
exactly one account with that email exists. -/
theorem verifyMembership_idempotent (st : MemState) (mid email pwd : String)
    (h1 : emailValid email = true)
    (h2 : membershipHasId st.memberships mid = true)
    (h3 : st.authAccounts.any (fun a => a == email) = false) :
    verifyMembership mid email pwd st =
      some (⟨true, "Membership verified and user created.", []⟩,
        ⟨st.authAccounts ++ [email], updateStatus st.memberships mid "verified"⟩) ∧
    verifyMembership mid email pwd
        ⟨st.authAccounts ++ [email], updateStatus st.memberships mid "verified"⟩ =
      some (⟨true, "User already exists. Membership marked as verified.", []⟩,
        ⟨st.authAccounts ++ [email],
         updateStatus (updateStatus st.memberships mid "verified") mid "verified"⟩) ∧
    statusOf (updateStatus st.memberships mid "verified") mid = some "verified" ∧
    statusOf (updateStatus (updateStatus st.memberships mid "verified") mid "verified") mid =
      some "verified" ∧
    (st.authAccounts ++ [email]).count email = 1 := by
  have hc0 : st.authAccounts.count email = 0 :=
    count_eq_zero_of_any_eq_false st.authAccounts email h3
  have hany1 : (st.authAccounts ++ [email]).any (fun a => a == email) = true := by simp
  have hhas1 : membershipHasId (updateStatus st.memberships mid "verified") mid = true := by
    rw [membershipHasId_updateStatus]
    exact h2
  refine ⟨?_, ?_, ?_, ?_, ?_⟩
  · simp [verifyMembership, h1, h3, h2]
  · simp [verifyMembership, h1, hany1, hhas1]
  · exact statusOf_updateStatus_self _ _ _ h2
  · exact statusOf_updateStatus_self _ _ _ hhas1
  · simp [List.count_append, hc0]

/-- C2 witness: verifying membership m1 twice for a fresh email ends
verified with a single bridge account. -/
theorem verifyMembership_idempotent_witness :
    verifyMembership "m1" "a@b.com" "9876543210" ⟨[], [("m1", "pending")]⟩ =
      some (⟨true, "Membership verified and user created.", []⟩,
        ⟨["a@b.com"], [("m1", "verified")]⟩) ∧
    statusOf [("m1", "verified")] "m1" = some "verified" ∧
    (["a@b.com"] : List String).count "a@b.com" = 1 := by
  have h := verifyMembership_idempotent ⟨[], [("m1", "pending")]⟩ "m1" "a@b.com"
    "9876543210" (by decide) (by decide) (by decide)
  have hupd : updateStatus [("m1", "pending")] "m1" "verified" = [("m1", "verified")] := by
    decide
  refine ⟨h.1.trans (by decide), ?_, by decide⟩
  rw [← hupd]
  exact h.2.2.1

/-! ## C3: earnings submissions -/

/-- Any issue of a submitted line item appears among the submission's
issues. -/
theorem mem_earningsSchema_of_mem_item (i : EarningsInput) (it : EarningItemInput)
    (a : String × String) (hit : it ∈ i.earnings)
    (ha : a ∈ (earningItemParse it).1) : a ∈ (earningsSchema i).1 := by
  simp only [earningsSchema]
  rw [List.mem_append]
  right
  rw [List.mem_flatten]
  exact ⟨(earningItemParse it).1,
    List.mem_map.mpr ⟨earningItemParse it, List.mem_map.mpr ⟨it, hit, rfl⟩, rfl⟩, ha⟩

/-- C3: with an empty line-item sequence submitEarnings fails carrying the
minimum-count error and writes nothing; with a sequence that validates,
exactly N documents are appended, each carrying the submission's employeeId
and employeeName. -/
theorem submitEarnings_spec (i : EarningsInput) (st : List EarningDoc) :
    (i.earnings = [] →
      (submitEarnings i st).1.success = false ∧
      ("earnings", "Please add at least one earning.") ∈ (submitEarnings i st).1.errors ∧
      (submitEarnings i st).2 = st) ∧
    ((earningsSchema i).1 = [] →
      (submitEarnings i st).1.success = true ∧
      (submitEarnings i st).2.length = st.length + i.earnings.length ∧
      ∀ d ∈ (submitEarnings i st).2.drop st.length,
        d.employeeId = i.employeeId ∧ d.employeeName = i.employeeName) := by
  constructor
  · intro he
    have hmem : ("earnings", "Please add at least one earning.") ∈ (earningsSchema i).1 := by
      simp [earningsSchema, he]
    have hne : (earningsSchema i).1 ≠ [] := List.ne_nil_of_mem hmem
    simp only [submitEarnings]
    rw [if_neg hne]
    exact ⟨rfl, hmem, rfl⟩
  · intro h
    simp only [submitEarnings]
    rw [if_pos h]
    refine ⟨rfl, ?_, ?_⟩
    · have hlen : (earningsSchema i).2.earnings.length = i.earnings.length := by
        simp [earningsSchema]
      simp [hlen]
    · intro d hd
      rw [List.drop_left] at hd
      obtain ⟨e, he, rfl⟩ := List.mem_map.mp hd
      exact ⟨rfl, rfl⟩

/-- C3 witness: the empty submission fails with nothing written; a one-item
submission writes exactly one document. -/
theorem submitEarnings_spec_witness :
    (submitEarnings ⟨[], "emp1", "Employee One"⟩ []).1.success = false ∧
    (submitEarnings ⟨[], "emp1", "Employee One"⟩ []).2 = [] ∧
    (submitEarnings ⟨[⟨"Consulting work", JsValue.num 500⟩], "emp1",
       "Employee One"⟩ []).1.success = true ∧
    (submitEarnings ⟨[⟨"Consulting work", JsValue.num 500⟩], "emp1",
       "Employee One"⟩ []).2.length = 1 := by
  have hval : (earningsSchema ⟨[⟨"Consulting work", JsValue.num 500⟩], "emp1",
      "Employee One"⟩).1 = [] := by
    have h1 : (3:Nat) ≤ "Consulting work".length := by decide
    have h2 : (1:Rat) ≤ 500 := by norm_num
    simp [earningsSchema, earningItemParse, zMinString, zCoerceNumMin, coerceNumber, h1, h2]
  have ha := (submitEarnings_spec ⟨[], "emp1", "Employee One"⟩ []).1 rfl
  have hb := (submitEarnings_spec ⟨[⟨"Consulting work", JsValue.num 500⟩], "emp1",
    "Employee One"⟩ []).2 hval
  exact ⟨ha.1, ha.2.2, hb.1, hb.2.1.trans (by decide)⟩

/-! ## C1: the KM ordering check and where it lives -/

/-- C1 counterexample: the server submitDsr performs no
closingKm-greater-than-openingKm check; hasTravelled=true with
openingKm=15000 and closingKm=14900 passes its validation, succeeds, and
writes the document. -/
theorem submitDsr_accepts_nonincreasing_km :
    (submitDsr ⟨"Visited client sites in Patna", some true, JsValue.num 15000,
       JsValue.num 14900, "emp1", "Employee One"⟩ []).1.success = true ∧
    (submitDsr ⟨"Visited client sites in Patna", some true, JsValue.num 15000,
       JsValue.num 14900, "emp1", "Employee One"⟩ []).1.errors = [] ∧
    (submitDsr ⟨"Visited client sites in Patna", some true, JsValue.num 15000,
       JsValue.num 14900, "emp1", "Employee One"⟩ []).2.length = 1 :=
  ⟨rfl, rfl, rfl⟩

/-- C1 (amended): the closingKm-greater-than-openingKm co-requirement is
enforced by the client-side DSR form schema, not by the server action: a
form submission with hasTravelled passes client validation only when both KM
readings are supplied and closing exceeds opening; 15000/14900 fails it and
15000/15100 passes it. -/
theorem dsrSchemaClient_enforces_km_order :
    (∀ i : DsrFormInput, i.hasTravelled = some true →
      (dsrSchemaClient i).1 = [] →
      ∃ o c, (dsrSchemaClient i).2.openingKm = some o ∧
        (dsrSchemaClient i).2.closingKm = some c ∧ o < c) ∧
    (dsrSchemaClient ⟨"Visited client sites in Patna", some true, JsValue.num 15000,
       JsValue.num 14900⟩).1 ≠ [] ∧
    (dsrSchemaClient ⟨"Visited client sites in Patna", some true, JsValue.num 15000,
       JsValue.num 15100⟩).1 = [] := by
  refine ⟨?_, ?_, ?_⟩
  · intro i hht h
    simp only [dsrSchemaClient, hht, Option.getD_some] at h
    rw [List.append_eq_nil] at h
    obtain ⟨hbase, href⟩ := h
    cases hok : dsrRefineOk true (zOptCoerceNum "openingKm" i.openingKm).2
        (zOptCoerceNum "closingKm" i.closingKm).2 with
    | false =>
      rw [if_pos ⟨hbase, hok⟩] at href
      exact absurd href (by simp)
    | true =>
      obtain ⟨o, c, ho, hc, hlt⟩ := (dsrRefineOk_true_iff _ _).mp hok
      exact ⟨o, c, by simp only [dsrSchemaClient, hht, Option.getD_some]; exact ho,
        by simp only [dsrSchemaClient, hht, Option.getD_some]; exact hc, hlt⟩
  · have hdesc : (10:Nat) ≤ "Visited client sites in Patna".length := by decide
    have hd : decide ((15000:Rat) < 14900) = false := decide_eq_false (by norm_num)
    simp [dsrSchemaClient, dsrRefineOk, zMinString, zOptCoerceNum, coerceNumber,
      hdesc, hd]
  · have hdesc : (10:Nat) ≤ "Visited client sites in Patna".length := by decide
    have hd : decide ((15000:Rat) < 15100) = true := decide_eq_true (by norm_num)
    simp [dsrSchemaClient, dsrRefineOk, zMinString, zOptCoerceNum, coerceNumber,
      hdesc, hd]

/-- C1 witness: the passing client submission indeed carries increasing KM
readings. -/
theorem dsrSchemaClient_enforces_km_order_witness :
    ∃ o c,
      (dsrSchemaClient ⟨"Visited client sites in Patna", some true, JsValue.num 15000,
        JsValue.num 15100⟩).2.openingKm = some o ∧
      (dsrSchemaClient ⟨"Visited client sites in Patna", some true, JsValue.num 15000,
        JsValue.num 15100⟩).2.closingKm = some c ∧ o < c :=
  dsrSchemaClient_enforces_km_order.1 _ rfl dsrSchemaClient_enforces_km_order.2.2

/-! ## C7: numeric coercion of string inputs -/

/-- C7 counterexample: the empty string is non-numeric input, yet the
optional openingKm field accepts it silently as 0 (JS Number of the empty
string is 0) and the submission succeeds - not a validation failure. -/
theorem dsr_accepts_empty_km_as_zero :
    (dsrSchema ⟨"Visited client sites in Patna", some false, JsValue.str "",
       JsValue.undef, "emp1", "Employee One"⟩).1 = [] ∧
    (dsrSchema ⟨"Visited client sites in Patna", some false, JsValue.str "",
       JsValue.undef, "emp1", "Employee One"⟩).2.openingKm = some 0 ∧
    (submitDsr ⟨"Visited client sites in Patna", some false, JsValue.str "",
       JsValue.undef, "emp1", "Employee One"⟩ []).1.success = true :=
  ⟨rfl, rfl, rfl⟩

/-- C7 (amended): a string on a coerced numeric field is parsed with JS
Number semantics; every string whose numeric value is NaN fails validation,
on the KM fields, the duration field and the amount field alike.  The
empty (or whitespace-only) string however coerces to 0 instead of failing
the type check: the duration minimum still rejects it, while the optional
KM fields accept it silently as 0 (see the counterexample). -/
theorem numeric_string_fields_reject_nan :
    (∀ (i : DsrInput) (s : String), i.openingKm = JsValue.str s →
      jsStringToNumber s = none → (dsrSchema i).1 ≠ []) ∧
    (∀ (i : CallLogInput) (s : String), i.duration = JsValue.str s →
      jsStringToNumber s = none → (callLogSchema i).1 ≠ []) ∧
    (∀ (i : EarningsInput) (it : EarningItemInput) (s : String), it ∈ i.earnings →
      it.amount = JsValue.str s → jsStringToNumber s = none →
      (earningsSchema i).1 ≠ []) ∧
    (∀ i : CallLogInput, i.duration = JsValue.str "" → (callLogSchema i).1 ≠ []) := by
  refine ⟨?_, ?_, ?_, ?_⟩
  · intro i s hs hn
    refine List.ne_nil_of_mem (a := ("openingKm", nanMessage)) ?_
    simp [dsrSchema, zOptCoerceNum, coerceNumber, hs, hn]
  · intro i s hs hn
    refine List.ne_nil_of_mem (a := ("duration", nanMessage)) ?_
    simp [callLogSchema, zCoerceNumMin, coerceNumber, hs, hn]
  · intro i it s hit ha hn
    refine List.ne_nil_of_mem (a := ("amount", nanMessage))
      (mem_earningsSchema_of_mem_item i it _ hit ?_)
    simp [earningItemParse, zCoerceNumMin, coerceNumber, ha, hn]
  · intro i hd
    have h0 : jsStringToNumber "" = some 0 := rfl
    have hle : ¬ ((1:Rat) ≤ 0) := by norm_num
    refine List.ne_nil_of_mem (a := ("duration", "Duration must be at least 1 minute.")) ?_
    simp [callLogSchema, zCoerceNumMin, coerceNumber, hd, h0, hle]

/-- C7 witness: a concrete malformed duration string is rejected. -/
theorem numeric_string_fields_reject_nan_witness :
    (callLogSchema ⟨"Acme Corp", "9876543210", "Quarterly renewal call",
       JsValue.str "abc", "emp1", "Employee One"⟩).1 ≠ [] :=
  numeric_string_fields_reject_nan.2.1 _ "abc" rfl rfl

/-! ## C8: the earnings amount bound -/

/-- C8 counterexample: amount 1/2 is strictly positive yet the submission is
rejected - the zod bound is min(1), not positivity. -/
theorem earnings_rejects_positive_half_amount :
    (0:Rat) < 1/2 ∧
    (earningsSchema ⟨[⟨"Consulting work", JsValue.num (1/2)⟩], "emp1",
       "Employee One"⟩).1 ≠ [] := by
  have hd : (3:Nat) ≤ "Consulting work".length := by decide
  have hlt : ¬ ((1:Rat) ≤ 1/2) := by norm_num
  refine ⟨by norm_num, ?_⟩
  simp only [earningsSchema, earningItemParse, zMinString, zCoerceNumMin,
    coerceNumber, List.map_cons, List.map_nil]
  simp [hd, hlt]
  norm_num

/-- C8 (amended): an earnings line-item amount is accepted exactly when it
is at least 1: every submission containing an item whose coerced amount is
below 1 - which includes every amount ≤ 0 - is rejected, and an item with a
valid description and amount ≥ 1 passes. -/
theorem earnings_amount_accepted_iff_ge_one :
    (∀ (i : EarningsInput) (it : EarningItemInput) (q : Rat), it ∈ i.earnings →
      coerceNumber it.amount = some q → q < 1 → (earningsSchema i).1 ≠ []) ∧
    (∀ (desc : String) (q : Rat), 3 ≤ desc.length →
      ((earningItemParse ⟨desc, JsValue.num q⟩).1 = [] ↔ 1 ≤ q)) := by
  constructor
  · intro i it q hit hq hlt
    have hnle : ¬ ((1:Rat) ≤ q) := not_le.mpr hlt
    refine List.ne_nil_of_mem (a := ("amount", "Amount must be greater than 0."))
      (mem_earningsSchema_of_mem_item i it _ hit ?_)
    simp [earningItemParse, zCoerceNumMin, hq, hnle]
  · intro desc q hdesc
    constructor
    · intro h
      by_contra hq
      have hmem : ("amount", "Amount must be greater than 0.") ∈
          (earningItemParse ⟨desc, JsValue.num q⟩).1 := by
        simp [earningItemParse, zCoerceNumMin, coerceNumber, hq]
      rw [h] at hmem
      exact absurd hmem (List.not_mem_nil _)
    · intro hq
      simp [earningItemParse, zMinString, zCoerceNumMin, coerceNumber, hdesc, hq]

/-- C8 witness: a concrete item with amount 5 passes the amount check. -/
theorem earnings_amount_accepted_iff_ge_one_witness :
    3 ≤ "Consulting work".length ∧
    (earningItemParse ⟨"Consulting work", JsValue.num 5⟩).1 = [] :=
  ⟨by decide, (earnings_amount_accepted_iff_ge_one.2 "Consulting work" 5
    (by decide)).mpr (by norm_num)⟩

/-! ## C9: the reported travel distance -/

/-- C9 counterexample: a stored DSR with hasTravelled and both KM fields
present but openingKm = 0 renders N/A (JS truthiness sends a zero reading to
the not-applicable branch), not the distance; and such a record passes the
client-side schema (0 and 100 are both defined with 100 > 0). -/
theorem travelCell_na_despite_present_kms :
    travelCell ⟨"Travelled to client site today", true, some 0, some 100⟩ = none ∧
    (some (0:Rat)).isSome = true ∧ (some (100:Rat)).isSome = true ∧
    (dsrSchemaClient ⟨"Travelled to client site today", some true, JsValue.num 0,
       JsValue.num 100⟩).1 = [] := by
  refine ⟨?_, rfl, rfl, ?_⟩
  · simp [travelCell]
  · have hdesc : (10:Nat) ≤ "Travelled to client site today".length := by decide
    have hd : decide ((0:Rat) < 100) = true := decide_eq_true (by norm_num)
    simp [dsrSchemaClient, dsrRefineOk, zMinString, zOptCoerceNum, coerceNumber,
      hdesc, hd]

/-- C9 (amended): the reported travel distance is closingKm minus openingKm
exactly when hasTravelled is true and both KM fields are present and
nonzero; in every other case - hasTravelled false, a KM field absent, or a
KM field equal to 0 - the cell reports not-applicable. -/
theorem travelCell_spec (log : DsrLog) (d : Rat) :
    travelCell log = some d ↔
      log.hasTravelled = true ∧ ∃ o c, log.openingKm = some o ∧
        log.closingKm = some c ∧ c ≠ 0 ∧ o ≠ 0 ∧ d = c - o := by
  rcases log with ⟨desc, ht, okm, ckm⟩
  cases ht with
  | false => simp [travelCell]
  | true =>
    cases okm with
    | none => simp [travelCell]
    | some o =>
      cases ckm with
      | none => simp [travelCell]
      | some c =>
        simp only [travelCell]
        constructor
        · intro hcell
          by_cases h : c ≠ 0 ∧ o ≠ 0
          · rw [if_pos h] at hcell
            exact ⟨by trivial, o, c, rfl, rfl, h.1, h.2, (Option.some_inj.mp hcell).symm⟩
          · rw [if_neg h] at hcell
            exact absurd hcell (by simp)
        · rintro ⟨-, o2, c2, ho2, hc2, hc0, ho0, hd⟩
          obtain rfl := Option.some_inj.mp ho2
          obtain rfl := Option.some_inj.mp hc2
          subst hd
          rw [if_pos ⟨hc0, ho0⟩]

/-- C9 witness: a record with nonzero readings 1 and 101 reports 101 - 1. -/
theorem travelCell_spec_witness :
    travelCell ⟨"Travelled to client site today", true, some 1, some 101⟩ =
      some ((101:Rat) - 1) :=
  (travelCell_spec _ _).mpr ⟨rfl, 1, 101, rfl, rfl, by norm_num, by norm_num, rfl⟩

/-! ## C4: resume upload in applyForJob -/

/-- C4: for a validated application with a non-empty resume file, the file
is uploaded at resumes/{jobId}/{now}-{name}; on upload success the stored
document carries the returned URL (attached before the write), and on upload
failure the submission fails with no application document and no stored
object. -/
theorem applyForJob_resume_handling (i : AppInput) (f : UploadFile) (env : UploadEnv)
    (st : AppState) (h : (applicationSchema i).1 = []) (hf : 0 < f.size) :
    (env.uploadResult = none →
      (applyForJob i (some f) env st).1.success = false ∧
      (applyForJob i (some f) env st).2 = st) ∧
    (∀ url, env.uploadResult = some url →
      (applyForJob i (some f) env st).1.success = true ∧
      (applyForJob i (some f) env st).2.applications =
        st.applications ++ [{ (applicationSchema i).2 with resumeUrl := some url }] ∧
      (applyForJob i (some f) env st).2.storagePaths =
        st.storagePaths ++
          ["resumes/" ++ (applicationSchema i).2.jobId ++ "/" ++ toString env.now ++
            "-" ++ f.name]) := by
  constructor
  · intro hu
    simp only [applyForJob]
    rw [if_pos h, if_pos hf, hu]
    exact ⟨rfl, rfl⟩
  · intro url hu
    simp only [applyForJob]
    rw [if_pos h, if_pos hf, hu]
    exact ⟨rfl, rfl, rfl⟩

/-- C4 witness: on a concrete valid application with a 7-byte resume and a
rejecting upload, the submission fails and the state is untouched. -/
theorem applyForJob_resume_handling_witness :
    (applyForJob c4input (some ⟨"resume.pdf", 7⟩) ⟨1700000000000, none⟩
      ⟨[], []⟩).1.success = false ∧
    (applyForJob c4input (some ⟨"resume.pdf", 7⟩) ⟨1700000000000, none⟩
      ⟨[], []⟩).2 = ⟨[], []⟩ :=
  (applyForJob_resume_handling c4input ⟨"resume.pdf", 7⟩ ⟨1700000000000, none⟩
    ⟨[], []⟩ (by decide) (by decide)).1 rfl

/-! ## C10: the dashboard total-earnings aggregation -/

/-- C10: the dashboard total equals the sum of the employee's amount fields
with a missing amount contributing 0, and an employee with no earnings
documents totals 0. -/
theorem totalEarnings_spec (docs : List EarningRecordRead) (uid : String) :
    totalEarnings docs uid =
      ((docs.filter (fun d => d.employeeId == uid)).map
        (fun d => d.amount.getD 0)).sum ∧
    ((docs.filter (fun d => d.employeeId == uid)) = [] →
      totalEarnings docs uid = 0) := by
  have key : totalEarnings docs uid =
      ((docs.filter (fun d => d.employeeId == uid)).map
        (fun d => d.amount.getD 0)).sum := by
    unfold totalEarnings
    rw [foldl_add_eq_sum]
    simp [amountOrZero_eq_getD]
  refine ⟨key, ?_⟩
  intro hf
  rw [key, hf]
  simp

/-- C10 witness: with no documents at all the total is 0. -/
theorem totalEarnings_spec_witness : totalEarnings [] "emp1" = 0 :=
  (totalEarnings_spec [] "emp1").2 rfl
